import Mathlib

set_option maxRecDepth 8000

namespace RNAIndel

/-- A cell of the tabular call data. The `nan` constructor is the pandas
null-marker (a float NaN, the only value unequal to itself under the
source's `row[c] == row[c]` test); the other constructors carry ordinary
string, integer and boolean column values. -/
inductive Cell where
  | nan : Cell
  | str : String → Cell
  | int : Int → Cell
  | bool : Bool → Cell
deriving DecidableEq, Repr

/-- Python equality on cells: `nan` compares unequal to everything,
itself included; all other values compare structurally. -/
def pyEq (a b : Cell) : Bool :=
  match a, b with
  | Cell.nan, _ => false
  | _, Cell.nan => false
  | a, b => a == b

/-- A cell is the null-marker exactly when it fails the self-equality test,
as in the source's `row[c] == row[c]` idiom. -/
def isNA (c : Cell) : Bool := !(pyEq c c)

/-- Python truthiness of a cell (`bool(x)`): `False`, `0` and the empty
string are falsy; NaN is truthy in Python. -/
def truthy : Cell → Bool
  | Cell.nan => true
  | Cell.str s => s ≠ ""
  | Cell.int n => n ≠ 0
  | Cell.bool b => b

/-- One row of the call table (a pandas Series), as a finite association
of column names to cells. -/
abbrev Row := List (String × Cell)

/-- Column lookup on a row; an absent column reads as the null-marker. -/
def getCol (r : Row) (c : String) : Cell := (List.lookup c r).getD Cell.nan

/-- One entry of the INFO/FORMAT schema tables: source columns, declared
arity token (`Number`), declared type token and description, as in the
nested dicts of `define_info_dict` / `define_format_dict`. -/
structure SchemaEntry where
  COLUMN : List String
  Number : String
  TYPE : String
  Description : String
deriving DecidableEq, Repr

/-- The INFO schema table of `define_info_dict` (indel_vcf_writer.py),
keyed by INFO ID, in source declaration order. -/
def define_info_dict : List (String × SchemaEntry) :=
  [ ("PRED", ⟨["predicted_class"], "1", "String",
      "Predicted class: somatic, germline, artifact"⟩),
    ("PROB", ⟨["prob_s", "prob_g", "prob_a"], "3", "Float",
      "Prediction probability of being somatic, germline, artifact in this order"⟩),
    ("DBSNP", ⟨["is_on_dbsnp"], "0", "Flag",
      "Flagged if on dbSNP"⟩),
    ("ANNO", ⟨["annotation"], ".", "String",
      "Indel annotation in GeneSymbol|RefSeqAccession|CodonPos|IndelEffect. Delimited by comma for multiple isoforms"⟩),
    ("MAXMAF", ⟨["max_maf"], "1", "Float",
      "Maximum minor allele frequency (MAF) reported in dbSNP or ClinVar"⟩),
    ("COMMON", ⟨["is_common"], "0", "Flag",
      "Flagged if curated Common on dbSNP or MAXMAF > 0.01"⟩),
    ("CLIN", ⟨["clin_info"], "1", "String",
      "Clinical Significance|Condition curated in ClinVar"⟩),
    ("ICP", ⟨["indel_complexity"], "1", "Integer",
      "Indel complexity"⟩),
    ("DSM", ⟨["dissimilarity"], "1", "Float",
      "Dissimilarity"⟩),
    ("ISZ", ⟨["indel_size"], "1", "Integer",
      "Indel size"⟩),
    ("REP", ⟨["repeat"], "1", "Integer",
      "Repeat"⟩),
    ("UQM", ⟨["is_uniq_mapped"], "0", "Flag",
      "Flagged if supported by uniquely mapped reads"⟩),
    ("NEB", ⟨["is_near_boundary"], "0", "Flag",
      "Flagged if near exon boundary"⟩),
    ("EQX", ⟨["equivalence_exists"], "0", "Flag",
      "Flagged if equivalent alignments exist for the indel"⟩),
    ("BID", ⟨["is_bidirectional"], "0", "Flag",
      "Flagged if supported by forward and reverse reads"⟩),
    ("MTA", ⟨["is_multiallelic"], "0", "Flag",
      "Flagged if multialleleic"⟩),
    ("FRM", ⟨["is_inframe"], "0", "Flag",
      "Flagged if inframe indel"⟩),
    ("SPL", ⟨["is_splice"], "0", "Flag",
      "Flagged if occurred in splice region"⟩),
    ("TRC", ⟨["is_truncating"], "0", "Flag",
      "Flagged if truncating indel"⟩),
    ("CDD", ⟨["is_in_cdd"], "0", "Flag",
      "Flagged if ocurred in conserved domain"⟩),
    ("LOC", ⟨["indel_location"], "1", "Float",
      "relatice indel location within the transcript coding region"⟩),
    ("NMD", ⟨["is_nmd_insensitive"], "0", "Flag",
      "Flagged if insensitive to nonsense mediated decay"⟩),
    ("IPG", ⟨["ipg"], "1", "Float",
      "Indels per gene"⟩),
    ("LEN", ⟨["cds_length"], "1", "Float",
      "Coding sequence length. Median value if multiple isoforms exist"⟩),
    ("LC", ⟨["lc"], "1", "Float",
      "Linguistic complexity of nucleotide sequence"⟩),
    ("LLC", ⟨["local_lc"], "1", "Float",
      "Local linguistic complexity of nucleotide sequence"⟩),
    ("GC", ⟨["gc"], "1", "Float",
      "GC-content of nucleotide sequence"⟩),
    ("LGC", ⟨["local_gc"], "1", "Float",
      "Local GC-content of nucleotide sequence"⟩),
    ("SG", ⟨["strength"], "1", "Float",
      "Strength of nucleotide sequence"⟩),
    ("LSG", ⟨["local_strength"], "1", "Float",
      "Local strength of nucleotide sequence"⟩),
    ("INS", ⟨["is_ins"], "0", "Flag",
      "Flagged if insertion"⟩),
    ("ATI", ⟨["is_at_ins"], "0", "Flag",
      "Flagged if a signle insertion of A or T"⟩),
    ("ATD", ⟨["is_at_del"], "0", "Flag",
      "Flagged if a single deletion of A or T"⟩),
    ("GCI", ⟨["is_gc_ins"], "0", "Flag",
      "Flagged if a single insertion of G or C"⟩),
    ("GCD", ⟨["is_gc_del"], "0", "Flag",
      "Flagged if a single deletion of G or C"⟩),
    ("ALTC", ⟨["alt_count"], "1", "Integer",
      "The number of unique reads supporting ALT allele"⟩),
    ("REFC", ⟨["ref_count"], "1", "Integer",
      "The number of unique reads supporting REF allele"⟩),
    ("RCF", ⟨["reclassified"], "0", "Flag",
      "Flagged if reclassified"⟩),
    ("RQB", ⟨["filtered", "rescued"], "1", "String",
      "Rescued by indel nearest to this entry"⟩) ]

/-- The FORMAT schema table of `define_format_dict` (indel_vcf_writer.py). -/
def define_format_dict : List (String × SchemaEntry) :=
  [ ("AD", ⟨["ref_count", "alt_count"], "R", "Integer",
      "Allelic depths by fragment (not read) for the ref and alt alleles in the order listed"⟩) ]

/-- A resolved field value, mirroring the Python value domain of
`link_datadict_to_dataframe`: `none` (Python `None`, absent), a single
scalar cell, or the per-column list kept for multi-column entries. -/
inductive PyVal where
  | none : PyVal
  | cell : Cell → PyVal
  | list : List (Option Cell) → PyVal
deriving DecidableEq, Repr

/-- Per-column extraction: `row[c] if row[c] == row[c] else None` of the
source, i.e. the cell unless it is the null-marker. -/
def cellOpt (row : Row) (c : String) : Option Cell :=
  if pyEq (getCol row c) (getCol row c) then some (getCol row c) else none

/-- Collapse the per-column list as the source does: a length-one list is
unwrapped to its element (`None` staying `None`); a longer list becomes
`None` when it contains `None`, else stays a list. -/
def collapse : List (Option Cell) → PyVal
  | [o] =>
    match o with
    | some c => PyVal.cell c
    | none => PyVal.none
  | l => if none ∈ l then PyVal.none else PyVal.list l

/-- Resolution of one schema entry's column list against a row: the body of
the loop of `link_datadict_to_dataframe`. -/
def resolveEntry (row : Row) (cols : List String) : PyVal :=
  collapse (cols.map (cellOpt row))

/-- Embedding of `link_datadict_to_dataframe` (indel_vcf_writer.py lines
104-122): every schema tag is mapped to its resolved value. -/
def link_datadict_to_dataframe (row : Row) (dict : List (String × SchemaEntry)) :
    List (String × PyVal) :=
  dict.map (fun kv => (kv.1, resolveEntry row kv.2.COLUMN))

/-- The declared INFO rendering order `info_order` of `vcf_template`
(indel_vcf_writer.py lines 179-219). -/
def info_order : List String :=
  ["PRED", "PROB", "ANNO", "MAXMAF", "COMMON", "CLIN", "REP", "LC", "LLC",
   "GC", "LGC", "SG", "LSG", "DSM", "ICP", "ISZ", "INS", "ATI", "ATD",
   "GCI", "GCD", "REFC", "ALTC", "BID", "UQM", "NEB", "EQX", "MTA", "FRM",
   "SPL", "TRC", "CDD", "LOC", "NMD", "IPG", "LEN", "DBSNP", "RCF", "RQB"]

/-- The declared FORMAT rendering order `format_order` of `vcf_template`. -/
def format_order : List String := ["AD"]

/-- Python `str()` of a cell, used when a resolved value is rendered. -/
def cellStr : Cell → String
  | Cell.nan => "nan"
  | Cell.str s => s
  | Cell.int n => toString n
  | Cell.bool b => if b then "True" else "False"

/-- Rendering of one optional cell inside a multi-valued field. -/
def optCellStr : Option Cell → String
  | some c => cellStr c
  | none => "None"

/-- Embedding of Python `sep.join(strings)`. -/
def pyJoin (sep : String) : List String → String
  | [] => ""
  | [x] => x
  | x :: xs => x ++ sep ++ pyJoin sep xs

/-- Modelled from the spec: the INFO-block token contributed by one tag of
the declared order. The file `indel_vcf.py` holding `IndelVcfReport` is not
under src/; per the spec the INFO block lists, in declared order, `tag`
(bare, for a Flag-type entry whose resolved value is truthy) or
`tag=value` tokens, omitting tags whose resolved value is absent, with
multi-valued fields joined by commas. -/
def info_token (row : Row) (tag : String) : Option String :=
  match List.lookup tag (link_datadict_to_dataframe row define_info_dict),
        List.lookup tag define_info_dict with
  | some pv, some e =>
    match pv with
    | PyVal.none => Option.none
    | PyVal.cell c =>
      if e.TYPE = "Flag" then (if truthy c then some tag else Option.none)
      else some (tag ++ "=" ++ cellStr c)
    | PyVal.list l => some (tag ++ "=" ++ pyJoin "," (l.map optCellStr))
  | _, _ => Option.none

/-- Modelled from the spec: the rendered INFO block, `;`-joined tokens in
the declared rendering order (file `indel_vcf.py` is not under src/). -/
def render_info (row : Row) : String :=
  pyJoin ";" (info_order.filterMap (info_token row))

/-- Modelled from the spec: the FORMAT tags of a row that resolved to a
present value, in declared order (file `indel_vcf.py` is not under src/). -/
def format_present (row : Row) : List (String × PyVal) :=
  format_order.filterMap (fun tag =>
    match List.lookup tag (link_datadict_to_dataframe row define_format_dict) with
    | some PyVal.none => Option.none
    | some pv => some (tag, pv)
    | Option.none => Option.none)

/-- Modelled from the spec: rendering of one FORMAT value. -/
def format_value : PyVal → String
  | PyVal.none => ""
  | PyVal.cell c => cellStr c
  | PyVal.list l => pyJoin "," (l.map optCellStr)

/-- Modelled from the spec: the data line rendered for one row
(`IndelVcfReport.vcf_record`; file `indel_vcf.py` is not under src/). The
fixed columns are tab-joined: CHROM, POS, ID (the dbSNP id when
non-missing, else the unknown marker "."), REF, ALT, QUAL ("."), FILTER
(copied from the `filtered` column), the INFO block, the FORMAT tag header
and the sample column. Allele left-anchoring against the reference is
delegated to an external collaborator and the coordinates and allele
strings are passed through. -/
def vcf_record (row : Row) : String :=
  pyJoin "\t"
    [ cellStr (getCol row "chr"),
      cellStr (getCol row "pos"),
      (if isNA (getCol row "dbsnp") then "." else cellStr (getCol row "dbsnp")),
      cellStr (getCol row "ref"),
      cellStr (getCol row "alt"),
      ".",
      cellStr (getCol row "filtered"),
      render_info row,
      pyJoin ":" ((format_present row).map Prod.fst),
      pyJoin ":" ((format_present row).map (fun kv => format_value kv.2)) ]

/-- Run-constant template inputs of `vcf_template` that come from outside
this module: the reference path, tool version, the sample name extracted
from the BAM header and the two feature-manifest meta lines produced by
`format_used_features` from the external classifier manifest. -/
structure RunParams where
  fasta : String
  version : String
  samplename : String
  featureLines : List String
deriving DecidableEq, Repr

/-- One schema definition meta line of `vcf_template` (the `meta_2` /
`meta_3` comprehensions), looked up by tag in its schema table. -/
def metaLineFor (block : String) (dict : List (String × SchemaEntry)) (tag : String) : String :=
  match List.lookup tag dict with
  | some e =>
    "##" ++ block ++ "=<ID=" ++ tag ++ "," ++ "Number=" ++ e.Number ++ ","
      ++ "Type=" ++ e.TYPE ++ "," ++ "Description=\"" ++ e.Description ++ "\">"
  | Option.none => "KeyError"

/-- The meta lines of `vcf_template` (indel_vcf_writer.py lines 169-241):
fixed provenance and filter lines, one INFO line per tag of `info_order`,
one FORMAT line per tag of `format_order`, then the feature-manifest
lines. The file date is passed in as `today`. -/
def metaLines (today : String) (p : RunParams) : List String :=
  [ "##fileformat=VCFv4.2",
    "##filedate=" ++ today,
    "##source=RNAIndelv" ++ p.version,
    "##reference=" ++ p.fasta,
    "##FILTER=<ID=NtF,Description=\"Not found as specified in the input VCF\">",
    "##FILTER=<ID=Lt2,Description=\"Less than 2 ALT allele count\">",
    "##FILTER=<ID=RqN,Description=\"Rescued with nearest indel\">" ]
  ++ info_order.map (metaLineFor "INFO" define_info_dict)
  ++ format_order.map (metaLineFor "FORMAT" define_format_dict)
  ++ p.featureLines

/-- The column-header line of `vcf_template`. -/
def headerLine (p : RunParams) : String :=
  pyJoin "\t"
    ["#CHROM", "POS", "ID", "REF", "ALT", "QUAL", "FILTER", "INFO", "FORMAT",
     p.samplename]

/-- Embedding of `vcf_template`: meta lines and the column-header line,
newline-joined. -/
def vcf_template (today : String) (p : RunParams) : String :=
  pyJoin "\n" (metaLines today p ++ [headerLine p])

/-- The working collection of `indel_vcf_writer` (lines 44-45): the
filtered calls, when any exist, are appended after the primary calls. -/
def mergedCalls (df df_filtered : List Row) : List Row :=
  if df_filtered = [] then df else df ++ df_filtered

/-- The sort key of a row: its chromosome and position. -/
def rowKey (r : Row) : String × Int :=
  (cellStr (getCol r "chr"),
   match getCol r "pos" with
   | Cell.int n => n
   | _ => 0)

/-- Strict lexicographic comparison of character lists, by scalar value. -/
def lexLt : List Char → List Char → Bool
  | [], [] => false
  | [], _ :: _ => true
  | _ :: _, [] => false
  | a :: as, b :: bs =>
    if a < b then true else if b < a then false else lexLt as bs

/-- Strict lexicographic comparison of chromosome names. -/
def strLt (s t : String) : Bool := lexLt s.data t.data

/-- Ascending lexicographic comparison of (chromosome, position) keys. -/
def keyLe (p q : String × Int) : Prop :=
  strLt p.1 q.1 = true ∨ (p.1 = q.1 ∧ p.2 ≤ q.2)

instance : DecidableRel keyLe := fun p q => by
  unfold keyLe; infer_instance

/-- Row comparison by (chromosome, position). -/
def rowLe (a b : Row) : Prop := keyLe (rowKey a) (rowKey b)

instance : DecidableRel rowLe := fun a b => by
  unfold rowLe; infer_instance

/-- Modelled from the spec: `sort_positionally` (file `indel_rescuer.py` is
not under src/) returns a new collection holding the input rows stably
sorted by (chromosome, position) ascending. -/
def sort_positionally (l : List Row) : List Row := List.insertionSort rowLe l

/-- The data lines of one write: every row of the sorted working
collection formatted in order (lines 47-60). -/
def recordLines (df df_filtered : List Row) : List String :=
  (sort_positionally (mergedCalls df df_filtered)).map vcf_record

/-- Embedding of the persisted file content of `indel_vcf_writer` (lines
62-64): the template plus a newline, followed by the newline-joined data
lines. -/
def writer_content (today : String) (p : RunParams) (df df_filtered : List Row) : String :=
  vcf_template today p ++ "\n" ++ pyJoin "\n" (recordLines df df_filtered)

/-- All lines of the written file, as a list. -/
def writer_lines (today : String) (p : RunParams) (df df_filtered : List Row) : List String :=
  metaLines today p ++ [headerLine p] ++ recordLines df df_filtered

/-- A call table (pandas DataFrame) as a list of rows. -/
abbrev Frame := List Row

/-- Read a frame out of an object heap; a dangling id reads as empty. -/
def heapGet (h : List Frame) (i : Nat) : Frame := (h[i]?).getD []

/-- Overwrite one heap slot in place. -/
def heapSet (h : List Frame) (i : Nat) (fr : Frame) : List Frame := h.set i fr

/-- In-place addition of the "vcf" column (line 59): every row of the
targeted frame gains the rendered record under the "vcf" key. -/
def addVcfColumn (fr : Frame) : Frame :=
  fr.map (fun r => r ++ [("vcf", Cell.str (vcf_record r))])

/-- Embedding of the frame manipulation of `indel_vcf_writer` (lines
44-60) over an explicit object heap, tracking which pandas object each
step targets: `pd.concat` allocates a fresh frame, `sort_positionally`
returns a new collection (modelled from the spec, see
`sort_positionally`), and the `df["vcf"] = ...` assignment mutates, in
place, the frame the local `df` refers to after those steps. Returns the
final heap and the extracted record lines. -/
def indel_vcf_writer_frames (h : List Frame) (dfId dffId : Nat) :
    List Frame × List String :=
  if heapGet h dffId = [] then
    let h2 := h ++ [sort_positionally (heapGet h dfId)]
    let h3 := heapSet h2 h.length (addVcfColumn (heapGet h2 h.length))
    (h3, (heapGet h3 h.length).map (fun r => cellStr (getCol r "vcf")))
  else
    let h1 := h ++ [heapGet h dfId ++ heapGet h dffId]
    let h2 := h1 ++ [sort_positionally (heapGet h1 h.length)]
    let h3 := heapSet h2 h1.length (addVcfColumn (heapGet h2 h1.length))
    (h3, (heapGet h3 h1.length).map (fun r => cellStr (getCol r "vcf")))

/-- Structural decimal parse of a token (kernel-reducible stand-in for
Python's `int()` on schema arity tokens). -/
def strToNat (s : String) : Option Nat :=
  if s.data ≠ [] ∧ s.data.all (fun ch => ch.isDigit) then
    some (s.data.foldl (fun n ch => 10 * n + (ch.toNat - 48)) 0)
  else Option.none

/-- Whether a declared arity token is consistent with the configured
source-column count: a numeric token other than "0" demands exactly that
many columns, the flag token "0" is backed by exactly one boolean-like
column, and the variable tokens "." and "R" admit any nonempty column
list. -/
def arityMatches (number : String) (count : Nat) : Bool :=
  if number = "0" then count == 1
  else if number = "." || number = "R" then 1 ≤ count
  else
    match strToNat number with
    | some n => count == n
    | Option.none => false

/-- A demonstration call row with the probability triple fully present. -/
def demo_row : Row :=
  [("chr", Cell.str "chr1"), ("pos", Cell.int 100), ("ref", Cell.str "A"),
   ("alt", Cell.str "AT"), ("dbsnp", Cell.nan), ("filtered", Cell.str "PASS"),
   ("is_on_dbsnp", Cell.bool false), ("predicted_class", Cell.str "somatic"),
   ("prob_s", Cell.str "0.9"), ("prob_g", Cell.str "0.05"),
   ("prob_a", Cell.str "0.05"), ("ref_count", Cell.int 5),
   ("alt_count", Cell.int 3)]

/-- A call row whose probability triple has a missing component. -/
def gap_row : Row :=
  [("prob_s", Cell.str "0.9"), ("prob_g", Cell.nan), ("prob_a", Cell.str "0.05")]

/-- A call row carrying only a truthy dbSNP flag column. -/
def flag_row : Row := [("is_on_dbsnp", Cell.bool true)]

/-- A call row whose dbSNP flag column is present but false. -/
def falsy_flag_row : Row := [("is_on_dbsnp", Cell.bool false)]

/-- A call row holding a present zero in a value column. -/
def zero_row : Row := [("max_maf", Cell.int 0)]

/-- A call row with both RQB source columns present. -/
def rqb_row : Row :=
  [("filtered", Cell.str "PASS"), ("rescued", Cell.str "chr1:100")]

/-- Two call rows sharing the (chromosome, position) key but differing in
the alternate allele. -/
def tie_row_a : Row :=
  [("chr", Cell.str "chr1"), ("pos", Cell.int 100), ("ref", Cell.str "A"),
   ("alt", Cell.str "AT"), ("filtered", Cell.str "PASS"),
   ("ref_count", Cell.int 5), ("alt_count", Cell.int 3)]

/-- The second of the two key-tied call rows. -/
def tie_row_b : Row :=
  [("chr", Cell.str "chr1"), ("pos", Cell.int 100), ("ref", Cell.str "A"),
   ("alt", Cell.str "AG"), ("filtered", Cell.str "PASS"),
   ("ref_count", Cell.int 7), ("alt_count", Cell.int 2)]

/-- Two call rows with distinct (chromosome, position) keys. -/
def key_row_a : Row :=
  [("chr", Cell.str "chr1"), ("pos", Cell.int 100), ("ref", Cell.str "A"),
   ("alt", Cell.str "AT"), ("filtered", Cell.str "PASS")]

/-- The second of the two distinct-key call rows. -/
def key_row_b : Row :=
  [("chr", Cell.str "chr1"), ("pos", Cell.int 200), ("ref", Cell.str "G"),
   ("alt", Cell.str "GC"), ("filtered", Cell.str "PASS")]

/-- Concrete run-constant template inputs for demonstrations. -/
def demo_params : RunParams := ⟨"ref.fa", "1.0", "Sample", []⟩

/-- The PROB schema entry, as declared in `define_info_dict`. -/
def prob_entry : SchemaEntry :=
  ⟨["prob_s", "prob_g", "prob_a"], "3", "Float",
   "Prediction probability of being somatic, germline, artifact in this order"⟩

/-- The DBSNP schema entry, as declared in `define_info_dict`. -/
def dbsnp_entry : SchemaEntry :=
  ⟨["is_on_dbsnp"], "0", "Flag", "Flagged if on dbSNP"⟩

/-- The MAXMAF schema entry, as declared in `define_info_dict`. -/
def maxmaf_entry : SchemaEntry :=
  ⟨["max_maf"], "1", "Float",
   "Maximum minor allele frequency (MAF) reported in dbSNP or ClinVar"⟩

theorem isNA_iff {c : Cell} : isNA c = true ↔ c = Cell.nan := by
  cases c <;> simp [isNA, pyEq]

theorem cellOpt_eq_none {row : Row} {c : String} (h : isNA (getCol row c) = true) :
    cellOpt row c = Option.none := by
  unfold cellOpt
  have : pyEq (getCol row c) (getCol row c) = false := by
    simpa [isNA] using h
  simp [this]

theorem cellOpt_eq_some {row : Row} {c : String} (h : isNA (getCol row c) = false) :
    cellOpt row c = some (getCol row c) := by
  unfold cellOpt
  have : pyEq (getCol row c) (getCol row c) = true := by
    simpa [isNA] using h
  simp [this]

theorem cellOpt_none_iff {row : Row} {c : String} :
    cellOpt row c = Option.none ↔ getCol row c = Cell.nan := by
  constructor
  · intro h
    by_cases hna : isNA (getCol row c) = true
    · exact isNA_iff.mp hna
    · rw [cellOpt_eq_some (by simpa using hna)] at h
      cases h
  · intro h
    exact cellOpt_eq_none (isNA_iff.mpr h)

theorem collapse_pair {a b : Option Cell} {t : List (Option Cell)} :
    collapse (a :: b :: t)
      = if Option.none ∈ a :: b :: t then PyVal.none else PyVal.list (a :: b :: t) := rfl

theorem resolveEntry_single {row : Row} {c : String} :
    resolveEntry row [c]
      = if isNA (getCol row c) = true then PyVal.none
        else PyVal.cell (getCol row c) := by
  by_cases h : isNA (getCol row c) = true
  · simp [resolveEntry, cellOpt_eq_none h, h, collapse]
  · simp only [Bool.not_eq_true] at h
    simp [resolveEntry, cellOpt_eq_some h, h, collapse]

theorem resolveEntry_missing {row : Row} {cols : List String}
    (h : ∃ c ∈ cols, isNA (getCol row c) = true) :
    resolveEntry row cols = PyVal.none := by
  obtain ⟨c, hc, hna⟩ := h
  match cols, hc with
  | [c'], hc =>
    have : c' = c := (List.mem_singleton.mp hc).symm
    subst this
    simp [resolveEntry_single, hna]
  | c₁ :: c₂ :: t, hc =>
    have hmem : Option.none ∈ (c₁ :: c₂ :: t).map (cellOpt row) := by
      refine List.mem_map.mpr ⟨c, hc, ?_⟩
      exact cellOpt_eq_none hna
    show collapse ((c₁ :: c₂ :: t).map (cellOpt row)) = PyVal.none
    rw [List.map_cons, List.map_cons, collapse_pair]
    simp only [List.map_cons] at hmem
    simp [hmem]

theorem resolveEntry_present {row : Row} {cols : List String}
    (hlen : 2 ≤ cols.length) (h : ∀ c ∈ cols, isNA (getCol row c) = false) :
    resolveEntry row cols = PyVal.list (cols.map (fun c => some (getCol row c))) := by
  match cols, hlen with
  | c₁ :: c₂ :: t, _ =>
    have hmap : (c₁ :: c₂ :: t).map (cellOpt row)
        = (c₁ :: c₂ :: t).map (fun c => some (getCol row c)) :=
      List.map_congr_left (fun c hc => cellOpt_eq_some (h c hc))
    have hnomem : Option.none ∉ (c₁ :: c₂ :: t).map (fun c => some (getCol row c)) := by
      intro hmem
      obtain ⟨c, _, hc⟩ := List.mem_map.mp hmem
      cases hc
    show collapse ((c₁ :: c₂ :: t).map (cellOpt row)) = _
    rw [hmap]
    rw [show ((c₁ :: c₂ :: t).map (fun c => some (getCol row c)))
        = some (getCol row c₁) :: some (getCol row c₂)
            :: t.map (fun c => some (getCol row c)) from rfl, collapse_pair]
    simp only [List.map_cons] at hnomem
    simp [hnomem]

theorem resolveEntry_whole_tuple {row : Row} {cols : List String} {l : List (Option Cell)}
    (h : resolveEntry row cols = PyVal.list l) : Option.none ∉ l := by
  match cols with
  | [] =>
    have : l = [] := by
      simpa [resolveEntry, collapse] using h.symm
    simp [this]
  | [c] =>
    rw [resolveEntry_single] at h
    by_cases hna : isNA (getCol row c) = true <;> simp [hna] at h
  | c₁ :: c₂ :: t =>
    have := h
    rw [show resolveEntry row (c₁ :: c₂ :: t)
        = collapse ((c₁ :: c₂ :: t).map (cellOpt row)) from rfl] at this
    rw [List.map_cons, List.map_cons, collapse_pair] at this
    by_cases hmem :
        Option.none ∈ cellOpt row c₁ :: cellOpt row c₂ :: t.map (cellOpt row)
    · simp [hmem] at this
    · simp only [hmem, if_neg, if_false] at this
      cases this
      exact hmem

theorem lookup_of_mem_nodup {β : Type} {l : List (String × β)} {k : String} {v : β}
    (hnd : (l.map Prod.fst).Nodup) (hm : (k, v) ∈ l) :
    List.lookup k l = some v := by
  induction l with
  | nil => cases hm
  | cons kv t ih =>
    rcases List.mem_cons.mp hm with h | h
    · cases h
      simp [List.lookup]
    · have hk : k ≠ kv.1 := by
        intro hkk
        have : k ∈ t.map Prod.fst := List.mem_map.mpr ⟨(k, v), h, rfl⟩
        rw [List.map_cons, List.nodup_cons] at hnd
        exact hnd.1 (hkk ▸ this)
      have hbeq : (k == kv.1) = false := by
        simpa using hk
      rw [List.map_cons, List.nodup_cons] at hnd
      simp [List.lookup, hbeq, ih hnd.2 h]

theorem link_map_fst (row : Row) (dict : List (String × SchemaEntry)) :
    (link_datadict_to_dataframe row dict).map Prod.fst = dict.map Prod.fst := by
  simp [link_datadict_to_dataframe, List.map_map, Function.comp]

theorem info_keys_nodup : (define_info_dict.map Prod.fst).Nodup := by decide

theorem format_keys_nodup : (define_format_dict.map Prod.fst).Nodup := by decide

theorem link_lookup {row : Row} {dict : List (String × SchemaEntry)} {k : String}
    {v : SchemaEntry} (hnd : (dict.map Prod.fst).Nodup) (hm : (k, v) ∈ dict) :
    List.lookup k (link_datadict_to_dataframe row dict)
      = some (resolveEntry row v.COLUMN) := by
  have hm' : (k, resolveEntry row v.COLUMN) ∈ link_datadict_to_dataframe row dict :=
    List.mem_map.mpr ⟨(k, v), hm, rfl⟩
  exact lookup_of_mem_nodup (by rw [link_map_fst]; exact hnd) hm'

theorem lexLt_irrefl : ∀ l : List Char, lexLt l l = false
  | [] => rfl
  | a :: as => by simp [lexLt, lt_irrefl, lexLt_irrefl as]

theorem lexLt_nil_right : ∀ l : List Char, lexLt l [] = false
  | [] => rfl
  | _ :: _ => rfl

theorem lexLt_asymm : ∀ {l₁ l₂ : List Char},
    lexLt l₁ l₂ = true → lexLt l₂ l₁ = false
  | [], [], h => by cases h
  | [], _ :: _, _ => rfl
  | _ :: _, [], h => by cases h
  | a :: as, b :: bs, h => by
    by_cases hab : a < b
    · have hba : ¬ b < a := lt_asymm hab
      simp [lexLt, hba, hab]
    · by_cases hba : b < a
      · simp [lexLt, hab, hba] at h
      · have := @lexLt_asymm as bs (by simpa [lexLt, hab, hba] using h)
        simp [lexLt, hab, hba, this]

theorem lexLt_eq_of_not_lt : ∀ {l₁ l₂ : List Char},
    lexLt l₁ l₂ = false → lexLt l₂ l₁ = false → l₁ = l₂
  | [], [], _, _ => rfl
  | [], _ :: _, h₁, _ => by cases h₁
  | _ :: _, [], _, h₂ => by cases h₂
  | a :: as, b :: bs, h₁, h₂ => by
    by_cases hab : a < b
    · simp [lexLt, hab] at h₁
    · by_cases hba : b < a
      · simp [lexLt, hba] at h₂
      · have hcheq : a = b := le_antisymm (not_lt.mp hba) (not_lt.mp hab)
        have htail : as = bs :=
          lexLt_eq_of_not_lt (by simpa [lexLt, hab, hba] using h₁)
            (by simpa [lexLt, hab, hba] using h₂)
        rw [hcheq, htail]

theorem lexLt_trans : ∀ {l₁ l₂ l₃ : List Char},
    lexLt l₁ l₂ = true → lexLt l₂ l₃ = true → lexLt l₁ l₃ = true
  | _, l₂, [], _, h₂ => by rw [lexLt_nil_right l₂] at h₂; cases h₂
  | [], _, _ :: _, _, _ => rfl
  | _ :: _, [], _, h₁, _ => by cases h₁
  | a :: as, b :: bs, c :: cs, h₁, h₂ => by
    by_cases hab : a < b
    · by_cases hbc : b < c
      · simp [lexLt, lt_trans hab hbc]
      · by_cases hcb : c < b
        · simp [lexLt, hbc, hcb] at h₂
        · have : b = c := le_antisymm (not_lt.mp hcb) (not_lt.mp hbc)
          simp [lexLt, this ▸ hab]
    · by_cases hba : b < a
      · simp [lexLt, hab, hba] at h₁
      · have hcheq : a = b := le_antisymm (not_lt.mp hba) (not_lt.mp hab)
        by_cases hbc : b < c
        · simp [lexLt, hcheq ▸ hbc]
        · by_cases hcb : c < b
          · simp [lexLt, hbc, hcb] at h₂
          · have hcheq₂ : b = c := le_antisymm (not_lt.mp hcb) (not_lt.mp hbc)
            have htail : lexLt as cs = true :=
              lexLt_trans (by simpa [lexLt, hab, hba] using h₁)
                (by simpa [lexLt, hbc, hcb] using h₂)
            have hac : a = c := hcheq.trans hcheq₂
            simp [lexLt, hac ▸ hab, hac ▸ hba, htail, hac, lt_irrefl]

theorem strLt_irrefl (s : String) : strLt s s = false := lexLt_irrefl _

theorem strLt_asymm {s t : String} (h : strLt s t = true) : strLt t s = false :=
  lexLt_asymm h

theorem strLt_trans {s t u : String} (h₁ : strLt s t = true) (h₂ : strLt t u = true) :
    strLt s u = true :=
  lexLt_trans h₁ h₂

theorem strLt_eq_of_not_lt {s t : String} (h₁ : strLt s t = false)
    (h₂ : strLt t s = false) : s = t := by
  cases s with
  | mk ld =>
    cases t with
    | mk md =>
      exact congrArg String.mk (lexLt_eq_of_not_lt h₁ h₂)

theorem keyLe_refl (p : String × Int) : keyLe p p := Or.inr ⟨rfl, le_refl _⟩

theorem keyLe_total (p q : String × Int) : keyLe p q ∨ keyLe q p := by
  by_cases h₁ : strLt p.1 q.1 = true
  · exact Or.inl (Or.inl h₁)
  · by_cases h₂ : strLt q.1 p.1 = true
    · exact Or.inr (Or.inl h₂)
    · have he : p.1 = q.1 :=
        strLt_eq_of_not_lt (by simpa using h₁) (by simpa using h₂)
      rcases le_total p.2 q.2 with h3 | h3
      · exact Or.inl (Or.inr ⟨he, h3⟩)
      · exact Or.inr (Or.inr ⟨he.symm, h3⟩)

theorem keyLe_trans {p q r : String × Int} (h₁ : keyLe p q) (h₂ : keyLe q r) :
    keyLe p r := by
  rcases h₁ with h₁ | ⟨e₁, l₁⟩
  · rcases h₂ with h₂ | ⟨e₂, _⟩
    · exact Or.inl (strLt_trans h₁ h₂)
    · exact Or.inl (e₂ ▸ h₁)
  · rcases h₂ with h₂ | ⟨e₂, l₂⟩
    · exact Or.inl (e₁ ▸ h₂)
    · exact Or.inr ⟨e₁.trans e₂, le_trans l₁ l₂⟩

theorem keyLe_antisymm {p q : String × Int} (h₁ : keyLe p q) (h₂ : keyLe q p) :
    p = q := by
  rcases h₁ with h₁ | ⟨e₁, l₁⟩
  · rcases h₂ with h₂ | ⟨e₂, _⟩
    · rw [strLt_asymm h₁] at h₂; cases h₂
    · rw [e₂, strLt_irrefl] at h₁; cases h₁
  · rcases h₂ with h₂ | ⟨_, l₂⟩
    · rw [e₁, strLt_irrefl] at h₂; cases h₂
    · exact Prod.ext e₁ (le_antisymm l₁ l₂)

instance : IsTotal Row rowLe := ⟨fun a b => keyLe_total (rowKey a) (rowKey b)⟩

instance : IsTrans Row rowLe := ⟨fun _ _ _ => keyLe_trans⟩

theorem rowLe_refl (a : Row) : rowLe a a := keyLe_refl _

theorem sorted_sort_positionally (l : List Row) :
    List.Sorted rowLe (sort_positionally l) :=
  List.sorted_insertionSort rowLe l

theorem perm_sort_positionally (l : List Row) :
    List.Perm (sort_positionally l) l :=
  List.perm_insertionSort rowLe l

theorem sorted_perm_eq {l₁ l₂ : List Row} (hp : List.Perm l₁ l₂)
    (hs₁ : List.Sorted rowLe l₁) (hs₂ : List.Sorted rowLe l₂)
    (hinj : ∀ a ∈ l₁, ∀ b ∈ l₁, rowKey a = rowKey b → a = b) : l₁ = l₂ := by
  induction l₁ generalizing l₂ with
  | nil => exact hp.nil_eq
  | cons a t ih =>
    cases l₂ with
    | nil => exact absurd (hp.symm.nil_eq).symm (by simp)
    | cons b t₂ =>
      have hamem : a ∈ b :: t₂ := hp.mem_iff.mp (List.mem_cons_self a t)
      have hbmem : b ∈ a :: t := hp.mem_iff.mpr (List.mem_cons_self b t₂)
      have hmin₁ : ∀ x ∈ a :: t, rowLe a x := by
        intro x hx
        rcases List.mem_cons.mp hx with h | h
        · exact h ▸ rowLe_refl a
        · exact (List.sorted_cons.mp hs₁).1 x h
      have hmin₂ : ∀ x ∈ b :: t₂, rowLe b x := by
        intro x hx
        rcases List.mem_cons.mp hx with h | h
        · exact h ▸ rowLe_refl b
        · exact (List.sorted_cons.mp hs₂).1 x h
      have hab : a = b :=
        hinj a (List.mem_cons_self a t) b hbmem
          (keyLe_antisymm (hmin₁ b hbmem) (hmin₂ a hamem))
      subst hab
      have htail : t = t₂ :=
        ih hp.cons_inv (List.sorted_cons.mp hs₁).2 (List.sorted_cons.mp hs₂).2
          (fun x hx y hy hk =>
            hinj x (List.mem_cons_of_mem _ hx) y (List.mem_cons_of_mem _ hy) hk)
      rw [htail]

theorem pyJoin_cons (sep x : String) {ys : List String} (h : ys ≠ []) :
    pyJoin sep (x :: ys) = x ++ sep ++ pyJoin sep ys := by
  cases ys with
  | nil => exact absurd rfl h
  | cons y t => rfl

theorem pyJoin_append (sep : String) {xs ys : List String}
    (hxs : xs ≠ []) (hys : ys ≠ []) :
    pyJoin sep (xs ++ ys) = pyJoin sep xs ++ sep ++ pyJoin sep ys := by
  induction xs with
  | nil => exact absurd rfl hxs
  | cons x t ih =>
    cases t with
    | nil =>
      rw [List.singleton_append, pyJoin_cons sep x hys]
      rfl
    | cons x₂ t₂ =>
      rw [List.cons_append, pyJoin_cons sep x (by simp),
        pyJoin_cons sep x (by simp), ih (by simp)]
      simp [String.append_assoc]

theorem getLast?_append_ne_nil {l₁ l₂ : List Char} (h : l₂ ≠ []) :
    (l₁ ++ l₂).getLast? = l₂.getLast? := by
  rw [List.getLast?_append]
  cases l₂ with
  | nil => exact absurd rfl h
  | cons a t =>
    have hsome : (a :: t).getLast?.isSome := by simp [List.getLast?_isSome]
    cases hx : (a :: t).getLast? with
    | none => rw [hx] at hsome; cases hsome
    | some b => simp

theorem info_flag_shape :
    ∀ kv ∈ define_info_dict, kv.2.Number = "0" →
      kv.2.COLUMN.length = 1 ∧ kv.2.TYPE = "Flag" := by decide

theorem info_cols_ne_nil :
    ∀ kv ∈ define_info_dict ++ define_format_dict, kv.2.COLUMN ≠ [] := by decide

theorem vcf_record_data_ne_nil (row : Row) : (vcf_record row).data ≠ [] := by
  unfold vcf_record
  rw [pyJoin_cons _ _ (by simp)]
  intro h
  have htab : ("\t" : String).data = ['\t'] := rfl
  simp [String.data_append, htab] at h

theorem writer_content_eq_join (today : String) (p : RunParams) (df dff : List Row)
    (h : recordLines df dff ≠ []) :
    writer_content today p df dff = pyJoin "\n" (writer_lines today p df dff) := by
  have hlines : writer_lines today p df dff
      = (metaLines today p ++ [headerLine p]) ++ recordLines df dff := by
    simp [writer_lines, List.append_assoc]
  rw [hlines, pyJoin_append "\n" (by simp) h]
  rfl

theorem writer_content_getLast_empty (today : String) (p : RunParams)
    (df dff : List Row) (h : recordLines df dff = []) :
    (writer_content today p df dff).data.getLast? = some '\n' := by
  unfold writer_content
  rw [h]
  have : vcf_template today p ++ "\n" ++ pyJoin "\n" [] = vcf_template today p ++ "\n" := by
    simp [pyJoin]
  rw [this, String.data_append]
  have hnl : ("\n" : String).data = ['\n'] := rfl
  rw [hnl]
  exact List.getLast?_concat _

theorem writer_content_getLast (today : String) (p : RunParams) (df dff : List Row)
    (rs : List String) (r : String) (hrec : recordLines df dff = rs ++ [r]) :
    (writer_content today p df dff).data.getLast? = r.data.getLast? := by
  have hr : r.data ≠ [] := by
    have hmem : r ∈ recordLines df dff := by rw [hrec]; simp
    obtain ⟨row, _, hrow⟩ := List.mem_map.mp hmem
    exact hrow ▸ vcf_record_data_ne_nil row
  unfold writer_content
  rw [hrec]
  cases rs with
  | nil =>
    have h1 : pyJoin "\n" (([] : List String) ++ [r]) = r := rfl
    rw [h1, String.data_append]
    exact getLast?_append_ne_nil hr
  | cons x t =>
    rw [pyJoin_append "\n" (by simp) (by simp)]
    have h1 : pyJoin "\n" [r] = r := rfl
    rw [h1]
    have hdata :
        (vcf_template today p ++ "\n" ++ (pyJoin "\n" (x :: t) ++ "\n" ++ r)).data
          = ((vcf_template today p ++ "\n").data
              ++ (pyJoin "\n" (x :: t) ++ "\n").data) ++ r.data := by
      simp [String.data_append, List.append_assoc]
    rw [hdata]
    exact getLast?_append_ne_nil hr

/-- C1: for every record and every schema entry of either table, the
resolver yields absent (`None`) whenever any backing source column holds
the null-marker; when all columns are present, a single-column entry
resolves to the single scalar and a multi-column entry resolves to the
ordered tuple of per-column values in declared column order; and a
resolved tuple never contains a missing component. -/
theorem resolver_absent_and_tuple_policy (row : Row) (k : String) (v : SchemaEntry)
    (hmem : (k, v) ∈ define_info_dict ++ define_format_dict) :
    v.COLUMN ≠ []
    ∧ ((∃ c ∈ v.COLUMN, isNA (getCol row c) = true) →
        resolveEntry row v.COLUMN = PyVal.none)
    ∧ ((∀ c ∈ v.COLUMN, isNA (getCol row c) = false) →
        (∀ c, v.COLUMN = [c] → resolveEntry row v.COLUMN = PyVal.cell (getCol row c))
        ∧ (2 ≤ v.COLUMN.length →
            resolveEntry row v.COLUMN
              = PyVal.list (v.COLUMN.map (fun c => some (getCol row c)))))
    ∧ (∀ l, resolveEntry row v.COLUMN = PyVal.list l → Option.none ∉ l) := by
  refine ⟨info_cols_ne_nil (k, v) hmem, fun h => resolveEntry_missing h,
    fun hall => ⟨?_, ?_⟩, ?_⟩
  · intro c hc
    rw [hc, resolveEntry_single]
    have : isNA (getCol row c) = false := hall c (by rw [hc]; simp)
    simp [this]
  · intro hlen
    exact resolveEntry_present hlen hall
  · intro l hl
    exact resolveEntry_whole_tuple hl

/-- Witness for C1 at a concrete record whose probability triple is
partially missing: the PROB entry resolves to absent, not a partial
tuple. -/
theorem resolver_absent_and_tuple_policy_witness :
    (∃ c ∈ prob_entry.COLUMN, isNA (getCol gap_row c) = true)
    ∧ resolveEntry gap_row prob_entry.COLUMN = PyVal.none :=
  ⟨by decide,
   (resolver_absent_and_tuple_policy gap_row "PROB" prob_entry (by decide)).2.1
     (by decide)⟩

/-- C2 counterexample: the INFO schema entry RQB declares the arity token
"1" — a declared count of one value — while being configured with two
source columns, so the claimed arity/column-count consistency fails on
the shipped table itself. -/
theorem arity_claim_fails_at_rqb :
    List.lookup "RQB" define_info_dict
      = some ⟨["filtered", "rescued"], "1", "String",
          "Rescued by indel nearest to this entry"⟩
    ∧ (["filtered", "rescued"] : List String).length = 2
    ∧ strToNat "1" = some 1
    ∧ (2 : Nat) ≠ 1
    ∧ arityMatches "1" 2 = false :=
  ⟨by decide, by decide, by decide, by decide, by decide⟩

/-- C2 amended: every entry of both schema tables except the INFO entry
RQB has a declared arity token consistent with its source-column count;
RQB declares arity 1 over two columns, and no fatal configuration error
rejects this at startup — the entry flows through per-record resolution
instead, resolving to a two-element tuple when both columns are present
(the tuple is carried in the resolved mapping) and silently to absent
when the rescued column is missing. -/
theorem arity_mismatch_unchecked :
    (define_info_dict.all (fun kv =>
        kv.1 == "RQB" || arityMatches kv.2.Number kv.2.COLUMN.length) = true)
    ∧ (define_format_dict.all (fun kv =>
        arityMatches kv.2.Number kv.2.COLUMN.length) = true)
    ∧ arityMatches "1" (["filtered", "rescued"] : List String).length = false
    ∧ resolveEntry rqb_row ["filtered", "rescued"]
        = PyVal.list [some (Cell.str "PASS"), some (Cell.str "chr1:100")]
    ∧ ("RQB", PyVal.list [some (Cell.str "PASS"), some (Cell.str "chr1:100")])
        ∈ link_datadict_to_dataframe rqb_row define_info_dict
    ∧ resolveEntry [("filtered", Cell.str "PASS")] ["filtered", "rescued"]
        = PyVal.none := by
  refine ⟨by decide, by decide, by decide, by decide, by decide, by decide⟩

/-- C10: for every record, the resolver returns a mapping whose key
sequence is exactly the schema's tag sequence for both tables; a tag whose
entry resolves to absent is kept in the mapping bound to `None` rather
than removed. -/
theorem resolver_keys_complete (row : Row) :
    (link_datadict_to_dataframe row define_info_dict).map Prod.fst
        = define_info_dict.map Prod.fst
    ∧ (link_datadict_to_dataframe row define_format_dict).map Prod.fst
        = define_format_dict.map Prod.fst
    ∧ (∀ k v, (k, v) ∈ define_info_dict →
        (∃ c ∈ v.COLUMN, isNA (getCol row c) = true) →
        (k, PyVal.none) ∈ link_datadict_to_dataframe row define_info_dict) := by
  refine ⟨link_map_fst row define_info_dict, link_map_fst row define_format_dict, ?_⟩
  intro k v hm hmiss
  have hres : resolveEntry row v.COLUMN = PyVal.none := resolveEntry_missing hmiss
  have : (k, resolveEntry row v.COLUMN) ∈ link_datadict_to_dataframe row define_info_dict :=
    List.mem_map.mpr ⟨(k, v), hm, rfl⟩
  rwa [hres] at this

/-- Witness for C10 on the empty record: every PROB source column is
missing, and the PROB tag is still present in the resolved mapping, bound
to `None`. -/
theorem resolver_keys_complete_witness :
    ("PROB", PyVal.none) ∈ link_datadict_to_dataframe ([] : Row) define_info_dict :=
  (resolver_keys_complete ([] : Row)).2.2 "PROB" prob_entry (by decide) (by decide)

/-- C4: the write operation appends a non-empty filtered collection after
the primary collection (primary first) and uses the primary collection
alone otherwise; the working collection is sorted by (chromosome,
position) ascending before any record is formatted; and a write with an
empty filtered collection produces the same data lines, in the same
order, as formatting the sorted primary collection alone. -/
theorem merge_sort_then_format (df dff : List Row) :
    (dff ≠ [] → mergedCalls df dff = df ++ dff)
    ∧ (dff = [] → mergedCalls df dff = df)
    ∧ List.Sorted rowLe (sort_positionally (mergedCalls df dff))
    ∧ recordLines df [] = (sort_positionally df).map vcf_record := by
  refine ⟨fun h => by simp [mergedCalls, h], fun h => by simp [mergedCalls, h],
    sorted_sort_positionally _, ?_⟩
  simp [recordLines, mergedCalls]

/-- Witness for C4 at concrete collections: a singleton filtered
collection is appended after the primary row. -/
theorem merge_sort_then_format_witness :
    mergedCalls [key_row_a] [key_row_b] = [key_row_a] ++ [key_row_b] :=
  (merge_sort_then_format [key_row_a] [key_row_b]).1 (by decide)

/-- C5 counterexample: two runs on row-permutations of the same two calls
that share a (chromosome, position) key, with the same run date, produce
different files — the stable sort preserves the differing input orders,
so the claimed byte-identity fails even though no file-date difference is
involved. -/
theorem permutation_identity_fails :
    List.Perm ([tie_row_a, tie_row_b] : List Row) [tie_row_b, tie_row_a]
    ∧ writer_content "20250101" demo_params [tie_row_a, tie_row_b] []
        ≠ writer_content "20250101" demo_params [tie_row_b, tie_row_a] [] :=
  ⟨by decide, fun h =>
    absurd (congrArg (fun s => s.data.getLast?) h) (by decide)⟩

/-- C5 amended: for two runs on input collections whose merged working
collections are row-permutations of each other, if no two distinct calls
share a (chromosome, position) key then the produced files are
byte-identical except for the file-date meta line; the data lines appear
sorted by (chromosome, position) ascending regardless of input order, and
a change of run date affects only the file-date meta line (line index 1)
of the written file. -/
theorem permuted_inputs_same_output (today : String) (p : RunParams)
    (df₁ dff₁ df₂ dff₂ : List Row)
    (hperm : List.Perm (mergedCalls df₁ dff₁) (mergedCalls df₂ dff₂))
    (hinj : ∀ a ∈ mergedCalls df₁ dff₁, ∀ b ∈ mergedCalls df₁ dff₁,
        rowKey a = rowKey b → a = b) :
    writer_content today p df₁ dff₁ = writer_content today p df₂ dff₂
    ∧ List.Sorted rowLe (sort_positionally (mergedCalls df₁ dff₁))
    ∧ (∀ t₁ t₂ : String,
        (writer_lines t₁ p df₁ dff₁).eraseIdx 1 = (writer_lines t₂ p df₁ dff₁).eraseIdx 1
        ∧ (writer_lines t₁ p df₁ dff₁).get? 1 = some ("##filedate=" ++ t₁)) := by
  have hsorteq : sort_positionally (mergedCalls df₁ dff₁)
      = sort_positionally (mergedCalls df₂ dff₂) := by
    refine sorted_perm_eq ?_ (sorted_sort_positionally _) (sorted_sort_positionally _) ?_
    · exact ((perm_sort_positionally _).trans hperm).trans (perm_sort_positionally _).symm
    · intro a ha b hb hk
      exact hinj a ((perm_sort_positionally _).mem_iff.mp ha)
        b ((perm_sort_positionally _).mem_iff.mp hb) hk
  refine ⟨?_, sorted_sort_positionally _, ?_⟩
  · unfold writer_content recordLines
    rw [hsorteq]
  · intro t₁ t₂
    constructor
    · simp [writer_lines, metaLines, List.eraseIdx]
    · simp [writer_lines, metaLines]

/-- Witness for C5 at concrete permuted inputs with distinct keys: both
orders of the two calls yield the same file. -/
theorem permuted_inputs_same_output_witness :
    writer_content "20250101" demo_params [key_row_a, key_row_b] []
      = writer_content "20250101" demo_params [key_row_b, key_row_a] [] :=
  (permuted_inputs_same_output "20250101" demo_params
      [key_row_a, key_row_b] [] [key_row_b, key_row_a] []
      (by decide) (by decide)).1

/-- C6 amended: the header block is newline-terminated and the data lines
are newline-separated, but no newline follows the final data line — when
at least one data line exists the file's last character is the last
character of the final data line, and with zero data lines the file ends
with the newline written after the header. -/
theorem trailing_newline_behaviour (today : String) (p : RunParams) (df dff : List Row) :
    (recordLines df dff ≠ [] →
        writer_content today p df dff = pyJoin "\n" (writer_lines today p df dff))
    ∧ (recordLines df dff = [] →
        (writer_content today p df dff).data.getLast? = some '\n')
    ∧ (∀ rs r, recordLines df dff = rs ++ [r] →
        (writer_content today p df dff).data.getLast? = r.data.getLast?) :=
  ⟨writer_content_eq_join today p df dff,
   writer_content_getLast_empty today p df dff,
   fun rs r hr => writer_content_getLast today p df dff rs r hr⟩

/-- Witness for C6 at a concrete one-call run: the file's last character
is the last character of the single data line. -/
theorem trailing_newline_behaviour_witness :
    (writer_content "20250101" demo_params [demo_row] []).data.getLast?
      = (vcf_record demo_row).data.getLast? :=
  (trailing_newline_behaviour "20250101" demo_params [demo_row] []).2.2
    [] (vcf_record demo_row) rfl

/-- C6 counterexample: at a concrete one-call run the persisted file does
not end with a newline character, so the final data line is not
newline-terminated. -/
theorem newline_claim_fails :
    (writer_content "20250101" demo_params [demo_row] []).data.getLast?
      ≠ some '\n' := by decide

/-- C7: an arity-0 (flag) INFO schema entry has a single backing column
and Flag type; it resolves to absent when the column holds the
null-marker and to the column's value otherwise, and its rendered INFO
token is the bare tag exactly when the backing value is non-missing and
truthy — otherwise the tag does not appear at all. -/
theorem flag_resolution_and_rendering (row : Row) (k : String) (v : SchemaEntry)
    (hmem : (k, v) ∈ define_info_dict) (hflag : v.Number = "0") :
    ∃ c, v.COLUMN = [c] ∧ v.TYPE = "Flag"
      ∧ resolveEntry row v.COLUMN
          = (if isNA (getCol row c) = true then PyVal.none
             else PyVal.cell (getCol row c))
      ∧ info_token row k
          = (if isNA (getCol row c) = false ∧ truthy (getCol row c) = true
             then some k else Option.none) := by
  obtain ⟨hlen, hty⟩ := info_flag_shape (k, v) hmem hflag
  have hlen' : v.COLUMN.length = 1 := hlen
  have hty' : v.TYPE = "Flag" := hty
  obtain ⟨c, hc⟩ : ∃ c, v.COLUMN = [c] := by
    cases hcol : v.COLUMN with
    | nil => rw [hcol] at hlen'; cases hlen'
    | cons a t =>
      cases t with
      | nil => exact ⟨a, rfl⟩
      | cons b t₂ => rw [hcol] at hlen'; simp at hlen'
  refine ⟨c, hc, hty', by rw [hc]; exact resolveEntry_single, ?_⟩
  unfold info_token
  rw [link_lookup info_keys_nodup hmem, lookup_of_mem_nodup info_keys_nodup hmem,
    hc, resolveEntry_single]
  by_cases hna : isNA (getCol row c) = true
  · simp [hna]
  · have hna' : isNA (getCol row c) = false := by simpa using hna
    by_cases htr : truthy (getCol row c) = true
    · simp [hna', hna, htr, hty']
    · simp [hna', hna, htr, hty']

/-- Witness for C7 at a concrete record with a truthy dbSNP column: the
DBSNP flag renders as the bare tag. -/
theorem flag_resolution_and_rendering_witness :
    info_token flag_row "DBSNP" = some "DBSNP" := by
  obtain ⟨c, hc, -, -, htok⟩ :=
    flag_resolution_and_rendering flag_row "DBSNP" dbsnp_entry (by decide) rfl
  have hceq : c = "is_on_dbsnp" := by
    have h := hc
    simp [dbsnp_entry] at h
    exact h.symm
  subst hceq
  rw [htok]
  decide

/-- C8 counterexample: a present-but-false flag column is treated as
present by the resolver (it is not the null-marker and resolves to the
value `False`), yet the DBSNP tag is omitted from the rendered line, so a
merely falsy value is not always rendered. -/
theorem falsy_flag_resolved_but_not_rendered :
    isNA (getCol falsy_flag_row "is_on_dbsnp") = false
    ∧ resolveEntry falsy_flag_row ["is_on_dbsnp"] = PyVal.cell (Cell.bool false)
    ∧ info_token falsy_flag_row "DBSNP" = Option.none :=
  ⟨by decide, by decide, by decide⟩

/-- C8 amended: a value counts as missing only when it is the record's
null-marker (a cell unequal to itself); merely falsy values such as 0,
False or the empty string are treated as present by the resolver, and for
every non-flag entry a fully present value is always rendered — a
present-but-false flag is the one exception, omitted by the flag
rendering rule. -/
theorem missing_is_nan_only (row : Row) (c : String) :
    (cellOpt row c = Option.none ↔ getCol row c = Cell.nan)
    ∧ (∀ k v, (k, v) ∈ define_info_dict → v.TYPE ≠ "Flag" →
        (∀ col ∈ v.COLUMN, isNA (getCol row col) = false) →
        info_token row k ≠ Option.none) := by
  refine ⟨cellOpt_none_iff, ?_⟩
  intro k v hm hty hall
  have hne : v.COLUMN ≠ [] := info_cols_ne_nil (k, v) (List.mem_append_left _ hm)
  unfold info_token
  rw [link_lookup info_keys_nodup hm, lookup_of_mem_nodup info_keys_nodup hm]
  cases hcol : v.COLUMN with
  | nil => exact absurd hcol hne
  | cons c₁ t =>
    cases t with
    | nil =>
      have h₁ : isNA (getCol row c₁) = false := hall c₁ (by rw [hcol]; simp)
      rw [resolveEntry_single]
      simp [h₁, hty]
    | cons c₂ t₂ =>
      have hres := @resolveEntry_present row (c₁ :: c₂ :: t₂)
        (by simp) (hcol ▸ hall)
      rw [hres]
      simp

/-- Witness for C8 at a concrete record holding a present zero: the
MAXMAF tag is rendered, not omitted. -/
theorem missing_is_nan_only_witness :
    info_token zero_row "MAXMAF" ≠ Option.none :=
  (missing_is_nan_only zero_row "max_maf").2 "MAXMAF" maxmaf_entry (by decide)
    (by decide) (by decide)

theorem heapGet_append {h : List Frame} {x : Frame} {i : Nat} (hi : i < h.length) :
    heapGet (h ++ [x]) i = heapGet h i := by
  unfold heapGet
  rw [List.getElem?_append_left hi]

theorem heapGet_set_ne {h : List Frame} {i j : Nat} {x : Frame} (hne : i ≠ j) :
    heapGet (heapSet h i x) j = heapGet h j := by
  unfold heapGet heapSet
  rw [List.getElem?_set_ne hne]

/-- C9: the caller's primary and filtered collections are never mutated in
place — after the write's frame manipulation, the heap slots holding the
input collections are exactly what they were before, because merging and
sorting allocate fresh collections and the only in-place column write
targets the freshly sorted frame. -/
theorem inputs_not_mutated (h : List Frame) (dfId dffId : Nat)
    (hdf : dfId < h.length) (hdff : dffId < h.length) :
    heapGet (indel_vcf_writer_frames h dfId dffId).1 dfId = heapGet h dfId
    ∧ heapGet (indel_vcf_writer_frames h dfId dffId).1 dffId = heapGet h dffId := by
  have key : ∀ i, i < h.length →
      heapGet (indel_vcf_writer_frames h dfId dffId).1 i = heapGet h i := by
    intro i hi
    unfold indel_vcf_writer_frames
    by_cases hdffE : heapGet h dffId = []
    · rw [if_pos hdffE]
      show heapGet (heapSet (h ++ [sort_positionally (heapGet h dfId)]) h.length _) i = _
      rw [heapGet_set_ne (by omega : h.length ≠ i), heapGet_append hi]
    · rw [if_neg hdffE]
      show heapGet
        (heapSet ((h ++ [heapGet h dfId ++ heapGet h dffId])
            ++ [sort_positionally (heapGet (h ++ [heapGet h dfId ++ heapGet h dffId]) h.length)])
          (h ++ [heapGet h dfId ++ heapGet h dffId]).length _) i = _
      rw [heapGet_set_ne (by simp; omega : (h ++ [heapGet h dfId ++ heapGet h dffId]).length ≠ i),
        heapGet_append (by simp; omega), heapGet_append hi]
  exact ⟨key dfId hdf, key dffId hdff⟩

/-- Witness for C9 at a concrete two-frame heap: both input frames are
unchanged after the write's frame manipulation. -/
theorem inputs_not_mutated_witness :
    heapGet (indel_vcf_writer_frames [[demo_row], []] 0 1).1 0
        = heapGet [[demo_row], []] 0
    ∧ heapGet (indel_vcf_writer_frames [[demo_row], []] 0 1).1 1
        = heapGet [[demo_row], []] 1 :=
  inputs_not_mutated [[demo_row], []] 0 1 (by decide) (by decide)

end RNAIndel
